import Mathlib

/-!
Verification development for the `biggerquery.dataset_manager` module.

The module is a three-layer stack:
* `DatasetManager` — submits write/read jobs to the remote engine, guarded by
  a table-existence precondition for truncate/append;
* `TemplatedDatasetManager` — resolves `\x7bname\x7d`-style placeholders in the
  SQL text from a merged variable context, and resolves table names to fully
  qualified ids;
* `PartitionedDatasetManager` — appends `$YYYYMMDD` partition suffixes to
  destination table names.

The embedding is pure: the remote engine is abstracted by a table-existence
oracle, and each operation returns the list of write jobs it submitted
together with the result (success, or the Python exception it raises).
Mutable session state is threaded explicitly through `step`.
-/

/-- Errors raised by Python `str.format`: `KeyError` for a placeholder
absent from the context, `ValueError` for stray or unterminated braces.
Auto-numbered fields and format specs are not used by this program, so a
field is modelled as a plain key looked up in the context. -/
inductive RenderError where
  | keyError (k : String)
  | valueError
deriving DecidableEq

/-- Exceptions the dataset-manager stack can raise. -/
inductive PyError where
  /-- `ValueError('Table ... does not exist')` from `table_exists_or_error`. -/
  | tableNotFound (table_id : String)
  /-- `KeyError` / `ValueError` raised by `sql.format(...)`. -/
  | renderFailed (e : RenderError)
  /-- `IndexError` from `table_id.split('$')[0].split('.')[2]` when the id
  has fewer than three dot-separated segments. -/
  | indexError
deriving DecidableEq

/-- One query job with a write destination, as shaped by `DatasetManager.write`:
`job_config.destination = table_id`, `job_config.write_disposition = mode`. -/
structure WriteJob where
  destination : String
  sql : String
  disposition : String
deriving DecidableEq

/-- A Python dict of strings, seen as a lookup function (insertion order is
irrelevant to every property below). -/
def Ctx : Type := String → Option String

/-- `d.update(m)`: bindings of `m` override bindings of `d`. -/
def updateD (d m : Ctx) : Ctx :=
  fun k => match m k with
  | some v => some v
  | none => d k

/-- `d[key] = v`. -/
def insertD (d : Ctx) (key v : String) : Ctx :=
  fun k => if k = key then some v else d k

/-- The empty dict. -/
def emptyD : Ctx := fun _ => none

/-- The character `\x7b`. -/
def lbChar : Char := '\x7b'

/-- The character `\x7d`. -/
def rbChar : Char := '\x7d'

/-- Python's `str.format` scanner, specialised to keyword fields.
The second list argument is `none` while scanning literal text and
`some acc` while scanning a field name (accumulated in reverse).

Literal mode: `\x7b\x7b` and `\x7d\x7d` emit one brace; a single `\x7d` is a
`ValueError`; a single `\x7b` opens a field. Field mode: `\x7d` closes the
field and substitutes the context value (a `KeyError` if the key is absent);
a substituted value is not rescanned. -/
def renderGo (ctx : Ctx) : List Char → Option (List Char) → Except RenderError String
  | [], none => .ok ""
  | [], some _ => .error .valueError
  | c :: rest, some acc =>
    if c = rbChar then
      match ctx (String.mk acc.reverse) with
      | some v => (renderGo ctx rest none).map (fun s => v ++ s)
      | none => .error (.keyError (String.mk acc.reverse))
    else renderGo ctx rest (some (c :: acc))
  | [c], none =>
    if c = lbChar then .error .valueError
    else if c = rbChar then .error .valueError
    else .ok c.toString
  | c :: c2 :: rest, none =>
    if c = lbChar then
      if c2 = lbChar then (renderGo ctx rest none).map (fun s => "\x7b" ++ s)
      else renderGo ctx (c2 :: rest) (some [])
    else if c = rbChar then
      if c2 = rbChar then (renderGo ctx rest none).map (fun s => "\x7d" ++ s)
      else .error .valueError
    else (renderGo ctx (c2 :: rest) none).map (fun s => c.toString ++ s)

/-- `sql.format(**ctx)`. -/
def render (sql : String) (ctx : Ctx) : Except RenderError String :=
  renderGo ctx sql.data none

/-- Python `s.replace(pat, rep)` restricted to a single-character pattern,
at the character-list level. -/
def pyReplaceChar (pat : Char) (rep : List Char) : List Char → List Char
  | [] => []
  | c :: rest => (if c = pat then rep else [c]) ++ pyReplaceChar pat rep rest

/-- Python `s.replace(pat, rep)` for a non-empty pattern; the fuel bounds the
number of characters consumed and `s.length` always suffices. After a match
the scanner resumes past the replacement (no rescanning of `rep`). -/
def pyReplaceFuel (rep pat : List Char) : Nat → List Char → List Char
  | 0, s => s
  | _ + 1, [] => []
  | fuel + 1, c :: rest =>
    if pat.isPrefixOf (c :: rest) then rep ++ pyReplaceFuel rep pat fuel ((c :: rest).drop pat.length)
    else c :: pyReplaceFuel rep pat fuel rest

/-- Python `s.replace(pat, rep)`; an empty pattern inserts `rep` before every
character and once at the end, as CPython does. -/
def pyReplace (s pat rep : String) : String :=
  if pat.data = [] then String.mk ((s.data.map (fun c => rep.data ++ [c])).flatten ++ rep.data)
  else String.mk (pyReplaceFuel rep.data pat.data s.data.length s.data)

/-- Python `s.split(sep)` for a one-character separator, at the
character-list level; the result is never empty. -/
def pySplitChar (sep : Char) : List Char → List (List Char)
  | [] => [[]]
  | c :: rest =>
    let r := pySplitChar sep rest
    if c = sep then [] :: r else (c :: r.headD []) :: r.tail

/-- Python `s.split(sep)` for a one-character separator (both uses in the
source split on a single character, `'$'` or `'.'`). -/
def pySplit (s : String) (sep : Char) : List String :=
  (pySplitChar sep s.data).map String.mk

/-- `get_partition_from_run_datetime_or_none`: for a non-`None` runtime,
`run_datetime[:10].replace('-', '')`; `None` maps to `None`. -/
def get_partition_from_run_datetime_or_none (run_datetime : Option String) : Option String :=
  match run_datetime with
  | some rd => some (String.mk (pyReplaceChar '-' [] (rd.data.take 10)))
  | none => none

/-- Python truthiness of `x or y` for an optional-string `x`: `None` and `""`
are falsy. -/
def pyOrOpt (a b : Option String) : Option String :=
  match a with
  | some s => if s = "" then b else some s
  | none => b

/-- Python `x or y` where `x` is an optional string and `y` a string. -/
def pyOrStr (a : Option String) (b : String) : String :=
  match a with
  | some s => if s = "" then b else s
  | none => b

/-- Python `str(x)` for an optional string: `str(None) = "None"`. -/
def pyStrOpt : Option String → String
  | some s => s
  | none => "None"

/-- The result of one operation: the write jobs submitted to the engine
during the call, and either success or the exception raised. -/
def OpResult : Type := List WriteJob × Except PyError Unit

/-- The execution layer. `dataset_id` is `dataset.full_dataset_id.replace(':', '.')`
(shape `project.dataset`); `tableExists` abstracts the metadata count query
issued by `DatasetManager.table_exists`. -/
structure DatasetManager where
  dataset_id : String
  tableExists : String → Bool

namespace DatasetManager

/-- `table_id.split('$')[0].split('.')[2]` — the unsuffixed base table name,
or `none` when the indexing would raise `IndexError`. -/
def baseTableName (table_id : String) : Option String :=
  (pySplit ((pySplit table_id '$').headD "") '.')[2]?

/-- `DatasetManager.write`: submit one job with the given destination and
write disposition. -/
def write (table_id sql mode : String) : List WriteJob :=
  [⟨table_id, sql, mode⟩]

/-- `DatasetManager.write_tmp(table_id, sql)`: submit with `'WRITE_TRUNCATE'`,
no existence precondition. -/
def write_tmp (_ : DatasetManager) (table_id sql : String) : OpResult :=
  (write table_id sql "WRITE_TRUNCATE", .ok ())

/-- `table_exists_or_error`: raise unless the unsuffixed base table exists. -/
def table_exists_or_error (dm : DatasetManager) (table_id : String) : Except PyError Unit :=
  match baseTableName table_id with
  | none => .error .indexError
  | some table_name =>
    if dm.tableExists table_name then .ok () else .error (.tableNotFound table_id)

/-- `DatasetManager.write_truncate`: existence check, then submit with
`'WRITE_TRUNCATE'`. -/
def write_truncate (dm : DatasetManager) (table_id sql : String) : OpResult :=
  match dm.table_exists_or_error table_id with
  | .error e => ([], .error e)
  | .ok () => (write table_id sql "WRITE_TRUNCATE", .ok ())

/-- `DatasetManager.write_append`: existence check, then submit with
`'WRITE_APPEND'`. -/
def write_append (dm : DatasetManager) (table_id sql : String) : OpResult :=
  match dm.table_exists_or_error table_id with
  | .error e => ([], .error e)
  | .ok () => (write table_id sql "WRITE_APPEND", .ok ())

end DatasetManager

/-- The templating layer. `internal_tables` is mutable session state
(it grows when `write_tmp` registers a new alias); the other maps and the
base runtime are fixed at construction. -/
structure TemplatedDatasetManager where
  dataset_manager : DatasetManager
  internal_tables : Ctx
  external_tables : Ctx
  extras : Ctx
  run_datetime : String

namespace TemplatedDatasetManager

/-- `create_full_table_id`: `dataset_id + '.' + table_name`. -/
def create_full_table_id (tm : TemplatedDatasetManager) (table_name : String) : String :=
  tm.dataset_manager.dataset_id ++ "." ++ table_name

/-- `TemplatedDatasetManager.__init__`: the internal map is built from the
supplied table names, each bound to its fully qualified id. -/
def init (dm : DatasetManager) (internal_tables : List String)
    (external_tables extras : Ctx) (run_datetime : String) : TemplatedDatasetManager :=
  { dataset_manager := dm
    internal_tables := fun k =>
      if internal_tables.contains k then some (dm.dataset_id ++ "." ++ k) else none
    external_tables := external_tables
    extras := extras
    run_datetime := run_datetime }

/-- `create_table_id`: strip any `$partition` suffix to get the base name and
replace the base name by its fully qualified id inside the original string. -/
def create_table_id (tm : TemplatedDatasetManager) (table_name : String) : String :=
  let table_name_without_partition := (pySplit table_name '$').headD ""
  pyReplace table_name table_name_without_partition
    (tm.create_full_table_id table_name_without_partition)

/-- `template_variables`: `{}` updated with internal, then external, then
extras, and finally `result['dt'] = custom_run_datetime or self.run_datetime`. -/
def template_variables (tm : TemplatedDatasetManager) (custom_run_datetime : Option String) : Ctx :=
  insertD (updateD (updateD (updateD emptyD tm.internal_tables) tm.external_tables) tm.extras)
    "dt" (pyOrStr custom_run_datetime tm.run_datetime)

/-- `TemplatedDatasetManager.write`: resolve the table id, render the SQL
(raising on a render failure, before the engine is touched), then delegate. -/
def write (tm : TemplatedDatasetManager) (write_callable : String → String → OpResult)
    (table_name sql : String) (custom_run_datetime : Option String) : OpResult :=
  let table_id := tm.create_table_id table_name
  match render sql (tm.template_variables custom_run_datetime) with
  | .error e => ([], .error (.renderFailed e))
  | .ok rendered => write_callable table_id rendered

/-- `TemplatedDatasetManager.write_truncate`. -/
def write_truncate (tm : TemplatedDatasetManager) (table_name sql : String)
    (custom_run_datetime : Option String) : OpResult :=
  tm.write tm.dataset_manager.write_truncate table_name sql custom_run_datetime

/-- `TemplatedDatasetManager.write_append`. -/
def write_append (tm : TemplatedDatasetManager) (table_name sql : String)
    (custom_run_datetime : Option String) : OpResult :=
  tm.write tm.dataset_manager.write_append table_name sql custom_run_datetime

/-- `TemplatedDatasetManager.write_tmp`: first `self.internal_tables[table_name]
= self.create_table_id(table_name)` (the mutation happens before anything can
fail), then `self.write(...)` against the updated state. -/
def write_tmp (tm : TemplatedDatasetManager) (table_name sql : String)
    (custom_run_datetime : Option String) : TemplatedDatasetManager × OpResult :=
  let tm' := { tm with
    internal_tables := insertD tm.internal_tables table_name (tm.create_table_id table_name) }
  (tm', tm'.write tm'.dataset_manager.write_tmp table_name sql custom_run_datetime)

/-- `TemplatedDatasetManager.collect`: render, then run a read query
(the read submits no write job). -/
def collect (tm : TemplatedDatasetManager) (sql : String)
    (custom_run_datetime : Option String) : OpResult :=
  match render sql (tm.template_variables custom_run_datetime) with
  | .error e => ([], .error (.renderFailed e))
  | .ok _ => ([], .ok ())

end TemplatedDatasetManager

/-- The caller-facing partitioning layer: a templating manager plus the
session's base partition (computed once from the base runtime). -/
structure PartitionedDatasetManager where
  dataset_manager : TemplatedDatasetManager
  partition : Option String

namespace PartitionedDatasetManager

/-- Lines 124–126 of `_write`: the table name handed to the templating layer —
`table_name + '$' + str(custom_partition or self.partition)` when
`partitioned`, the bare name otherwise. -/
def decorate (pm : PartitionedDatasetManager) (table_name : String)
    (partitioned : Bool) (custom_run_datetime : Option String) : String :=
  let custom_partition := get_partition_from_run_datetime_or_none custom_run_datetime
  if partitioned then table_name ++ "$" ++ pyStrOpt (pyOrOpt custom_partition pm.partition)
  else table_name

/-- `PartitionedDatasetManager.write_truncate` (default `partitioned=True`). -/
def write_truncate (pm : PartitionedDatasetManager) (table_name sql : String)
    (partitioned : Bool) (custom_run_datetime : Option String) : OpResult :=
  pm.dataset_manager.write_truncate
    (pm.decorate table_name partitioned custom_run_datetime) sql custom_run_datetime

/-- `PartitionedDatasetManager.write_append` (default `partitioned=True`). -/
def write_append (pm : PartitionedDatasetManager) (table_name sql : String)
    (partitioned : Bool) (custom_run_datetime : Option String) : OpResult :=
  pm.dataset_manager.write_append
    (pm.decorate table_name partitioned custom_run_datetime) sql custom_run_datetime

/-- `PartitionedDatasetManager.write_tmp`: always `partitioned=False`. -/
def write_tmp (pm : PartitionedDatasetManager) (table_name sql : String)
    (custom_run_datetime : Option String) : PartitionedDatasetManager × OpResult :=
  let r := pm.dataset_manager.write_tmp
    (pm.decorate table_name false custom_run_datetime) sql custom_run_datetime
  ({ pm with dataset_manager := r.1 }, r.2)

/-- `PartitionedDatasetManager.collect`: pass-through, no decoration. -/
def collect (pm : PartitionedDatasetManager) (sql : String)
    (custom_run_datetime : Option String) : OpResult :=
  pm.dataset_manager.collect sql custom_run_datetime

end PartitionedDatasetManager

/-- The public operations of one session, as invoked by a caller. -/
inductive Op where
  | write_truncate (table_name sql : String) (partitioned : Bool) (custom_run_datetime : Option String)
  | write_append (table_name sql : String) (partitioned : Bool) (custom_run_datetime : Option String)
  | write_tmp (table_name sql : String) (custom_run_datetime : Option String)
  | collect (sql : String) (custom_run_datetime : Option String)
  | create_table (create_query : String)
  | remove_dataset

/-- One session step: the state after the call and what the call did.
`create_table` and `remove_dataset` render nothing and submit no write job. -/
def step (pm : PartitionedDatasetManager) : Op → PartitionedDatasetManager × OpResult
  | .write_truncate t sql part c => (pm, pm.write_truncate t sql part c)
  | .write_append t sql part c => (pm, pm.write_append t sql part c)
  | .write_tmp t sql c => pm.write_tmp t sql c
  | .collect sql c => (pm, pm.collect sql c)
  | .create_table _ => (pm, ([], .ok ()))
  | .remove_dataset => (pm, ([], .ok ()))

/-- The tail of `create_dataset_manager` (lines 259–261): build the layer
stack and compute the session's base partition from the runtime. Client and
dataset creation are remote-engine concerns outside this model; the resulting
`dataset_id` and existence oracle are the parameters. -/
def create_dataset_manager (dataset_id : String) (ex : String → Bool)
    (internal_tables : List String) (external_tables extras : Ctx)
    (runtime : String) : PartitionedDatasetManager :=
  let dm : DatasetManager := ⟨dataset_id, ex⟩
  let tm := TemplatedDatasetManager.init dm internal_tables external_tables extras runtime
  ⟨tm, get_partition_from_run_datetime_or_none (some runtime)⟩

/-! ## Helper lemmas about the template renderer -/

/-- A character list with neither brace character contains no placeholder. -/
def braceFree (l : List Char) : Prop := ∀ c ∈ l, c ≠ lbChar ∧ c ≠ rbChar

instance (l : List Char) : Decidable (braceFree l) := by
  unfold braceFree; infer_instance

theorem string_mk_data (s : String) : String.mk s.data = s := rfl

theorem renderGo_open (ctx : Ctx) (c2 : Char) (rest : List Char) (h : c2 ≠ lbChar) :
    renderGo ctx (lbChar :: c2 :: rest) none = renderGo ctx (c2 :: rest) (some []) := by
  simp [renderGo, h]

theorem renderGo_field_cons (ctx : Ctx) (c : Char) (acc rest : List Char) (h : c ≠ rbChar) :
    renderGo ctx (c :: rest) (some acc) = renderGo ctx rest (some (c :: acc)) := by
  simp [renderGo, h]

theorem renderGo_field_close (ctx : Ctx) (acc rest : List Char) :
    renderGo ctx (rbChar :: rest) (some acc) =
      (match ctx (String.mk acc.reverse) with
       | some v => (renderGo ctx rest none).map (fun s => v ++ s)
       | none => .error (.keyError (String.mk acc.reverse))) := by
  simp [renderGo]

theorem renderGo_literal_cons (ctx : Ctx) (c : Char) (rest : List Char)
    (h1 : c ≠ lbChar) (h2 : c ≠ rbChar) :
    renderGo ctx (c :: rest) none = (renderGo ctx rest none).map (fun s => c.toString ++ s) := by
  cases rest with
  | nil =>
    simp only [renderGo, if_neg h1, if_neg h2]
    show Except.ok c.toString = Except.ok (c.toString ++ "")
    rw [String.append_empty]
  | cons c2 rest2 =>
    simp only [renderGo, if_neg h1, if_neg h2]

theorem renderGo_braceFree (ctx : Ctx) (l : List Char) (h : braceFree l) :
    renderGo ctx l none = .ok (String.mk l) := by
  induction l with
  | nil => simp [renderGo]
  | cons c rest ih =>
    have hc := h c (List.mem_cons_self c rest)
    have hrest : braceFree rest := fun x hx => h x (List.mem_cons_of_mem c hx)
    rw [renderGo_literal_cons ctx c rest hc.1 hc.2, ih hrest]
    rfl

theorem renderGo_literal_append (ctx : Ctx) (xs ys : List Char) (h : braceFree xs) :
    renderGo ctx (xs ++ ys) none = (renderGo ctx ys none).map (fun s => String.mk xs ++ s) := by
  induction xs with
  | nil =>
    cases hr : renderGo ctx ys none <;> simp [Except.map, hr]
  | cons c rest ih =>
    have hc := h c (List.mem_cons_self c rest)
    have hrest : braceFree rest := fun x hx => h x (List.mem_cons_of_mem c hx)
    rw [List.cons_append, renderGo_literal_cons ctx c (rest ++ ys) hc.1 hc.2, ih hrest]
    cases hr : renderGo ctx ys none <;> simp [Except.map, hr]
    rw [← String.append_assoc]
    rfl

theorem renderGo_field_scan (ctx : Ctx) (ks : List Char) (h : ∀ c ∈ ks, c ≠ rbChar) :
    ∀ (acc rest : List Char),
    renderGo ctx (ks ++ rbChar :: rest) (some acc) =
      (match ctx (String.mk (acc.reverse ++ ks)) with
       | some v => (renderGo ctx rest none).map (fun s => v ++ s)
       | none => .error (.keyError (String.mk (acc.reverse ++ ks)))) := by
  induction ks with
  | nil =>
    intro acc rest
    rw [List.nil_append, renderGo_field_close, List.append_nil]
  | cons k ks' ih =>
    intro acc rest
    have hk := h k (List.mem_cons_self k ks')
    have hks' : ∀ c ∈ ks', c ≠ rbChar := fun x hx => h x (List.mem_cons_of_mem k hx)
    rw [List.cons_append, renderGo_field_cons ctx k acc (ks' ++ rbChar :: rest) hk,
      ih hks' (k :: acc) rest]
    have hrw : (k :: acc).reverse ++ ks' = acc.reverse ++ k :: ks' := by simp
    rw [hrw]

theorem renderGo_placeholder (ctx : Ctx) (k v : String) (post : List Char)
    (hk : ctx k = some v) (hne : k ≠ "") (hkb : braceFree k.data) (hpost : braceFree post) :
    renderGo ctx (lbChar :: (k.data ++ rbChar :: post)) none = .ok (v ++ String.mk post) := by
  obtain ⟨kc, ks, hkd⟩ : ∃ kc ks, k.data = kc :: ks := by
    cases hd : k.data with
    | nil => exact absurd (String.ext hd) hne
    | cons kc ks => exact ⟨kc, ks, rfl⟩
  have hkc : kc ≠ lbChar := (hkb kc (by rw [hkd]; exact List.mem_cons_self kc ks)).1
  have hnorb : ∀ c ∈ kc :: ks, c ≠ rbChar := by
    intro c hc
    exact (hkb c (by rw [hkd]; exact hc)).2
  rw [hkd, List.cons_append, renderGo_open ctx kc (ks ++ rbChar :: post) hkc,
    ← List.cons_append, renderGo_field_scan ctx (kc :: ks) hnorb [] post]
  simp only [List.reverse_nil, List.nil_append]
  rw [← hkd, string_mk_data, hk, renderGo_braceFree ctx post hpost]
  rfl

/-- Rendering a statement of the shape `pre \x7bk\x7d post` with brace-free
`pre`, `k`, `post` substitutes the context's value for `k`. -/
theorem render_one_placeholder (ctx : Ctx) (pre k v post : String)
    (hk : ctx k = some v) (hne : k ≠ "")
    (hpre : braceFree pre.data) (hkb : braceFree k.data) (hpost : braceFree post.data) :
    render (pre ++ "\x7b" ++ k ++ "\x7d" ++ post) ctx = .ok (pre ++ v ++ post) := by
  have hdata : (pre ++ "\x7b" ++ k ++ "\x7d" ++ post).data
      = pre.data ++ (lbChar :: (k.data ++ rbChar :: post.data)) := by
    simp [String.data_append]
    exact ⟨rfl, rfl⟩
  rw [render, hdata, renderGo_literal_append ctx pre.data _ hpre,
    renderGo_placeholder ctx k v post.data hk hne hkb hpost]
  simp [Except.map, string_mk_data, String.append_assoc]

/-! ## Helper lemmas about partition suffixes -/

theorem pyReplaceChar_filter (pat : Char) (l : List Char) :
    pyReplaceChar pat [] l = l.filter (fun c => c != pat) := by
  induction l with
  | nil => rfl
  | cons c rest ih =>
    by_cases hc : c = pat <;> simp [pyReplaceChar, hc, List.filter_cons, ih]

theorem isDigit_ne_dash (c : Char) (h : c.isDigit = true) : c ≠ '-' := by
  intro hc
  rw [hc] at h
  exact absurd h (by decide)

/-- The runtime format documented in the source's docstring for
`get_partition_from_run_datetime_or_none` (`YYYY-MM-DD HH:mm:ss` or
`YYYY-MM-DD`): the first ten characters are digits with dashes at
positions 4 and 7. -/
def wellFormedRuntime (s : String) : Bool :=
  match s.data with
  | c0 :: c1 :: c2 :: c3 :: c4 :: c5 :: c6 :: c7 :: c8 :: c9 :: _ =>
    c0.isDigit && c1.isDigit && c2.isDigit && c3.isDigit && (c4 == '-') &&
    c5.isDigit && c6.isDigit && (c7 == '-') && c8.isDigit && c9.isDigit
  | _ => false

theorem partition_of_wellFormed (s : String) (hs : wellFormedRuntime s = true) :
    ∃ p, get_partition_from_run_datetime_or_none (some s) = some p ∧
      p.length = 8 ∧ ∀ c ∈ p.data, c.isDigit := by
  obtain ⟨l⟩ := s
  rcases l with _|⟨c0,_|⟨c1,_|⟨c2,_|⟨c3,_|⟨c4,_|⟨c5,_|⟨c6,_|⟨c7,_|⟨c8,_|⟨c9,rest⟩⟩⟩⟩⟩⟩⟩⟩⟩⟩ <;>
    simp only [wellFormedRuntime, Bool.and_eq_true, beq_iff_eq, Bool.false_eq_true] at hs
  obtain ⟨⟨⟨⟨⟨⟨⟨⟨⟨h0, h1⟩, h2⟩, h3⟩, h4⟩, h5⟩, h6⟩, h7⟩, h8⟩, h9⟩ := hs
  subst h4 h7
  have n0 := isDigit_ne_dash c0 h0
  have n1 := isDigit_ne_dash c1 h1
  have n2 := isDigit_ne_dash c2 h2
  have n3 := isDigit_ne_dash c3 h3
  have n5 := isDigit_ne_dash c5 h5
  have n6 := isDigit_ne_dash c6 h6
  have n8 := isDigit_ne_dash c8 h8
  have n9 := isDigit_ne_dash c9 h9
  refine ⟨String.mk [c0, c1, c2, c3, c5, c6, c8, c9], ?_, rfl, ?_⟩
  · simp [get_partition_from_run_datetime_or_none, List.take, pyReplaceChar,
      n0, n1, n2, n3, n5, n6, n8, n9]
  · intro c hc
    simp at hc
    rcases hc with rfl|rfl|rfl|rfl|rfl|rfl|rfl|rfl <;> assumption

/-! ## Shared concrete sessions for witnesses and counterexamples -/

/-- An existence oracle under which every table exists. -/
def exAll : String → Bool := fun _ => true

/-- An existence oracle under which no table exists. -/
def exNone : String → Bool := fun _ => false

/-- A session over `project.dataset` with no preconfigured tables. -/
def sampleSession (ex : String → Bool) (runtime : String) : PartitionedDatasetManager :=
  create_dataset_manager "project.dataset" ex [] emptyD emptyD runtime

/-! ## Claims -/

/-- C3: the partition-suffix function maps `"2020-01-01 10:00:00"` and
`"2020-01-01"` to `"20200101"` and `None` to `None`; in general, for a
non-`None` runtime it keeps the first 10 characters with every `'-'`
removed. -/
theorem c3_partition_suffix :
    get_partition_from_run_datetime_or_none (some "2020-01-01 10:00:00") = some "20200101" ∧
    get_partition_from_run_datetime_or_none (some "2020-01-01") = some "20200101" ∧
    get_partition_from_run_datetime_or_none none = none ∧
    ∀ rd : String, get_partition_from_run_datetime_or_none (some rd)
      = some (String.mk ((rd.data.take 10).filter (fun c => c != '-'))) := by
  refine ⟨rfl, rfl, rfl, fun rd => ?_⟩
  simp [get_partition_from_run_datetime_or_none, pyReplaceChar_filter]

/-- C1: a `write_truncate` or `write_append` whose destination's unsuffixed
base table does not exist raises the table-not-found error and submits no
write job to the engine — both at the execution layer, where the guard
lives, and through the public facade (whose SQL rendering happens before
the guard, hence the rendering-success hypothesis). -/
theorem c1_missing_base_blocks_write :
    (∀ (dm : DatasetManager) (table_id sql nm : String),
      DatasetManager.baseTableName table_id = some nm →
      dm.tableExists nm = false →
      dm.write_truncate table_id sql = ([], .error (.tableNotFound table_id)) ∧
      dm.write_append table_id sql = ([], .error (.tableNotFound table_id))) ∧
    (∀ (pm : PartitionedDatasetManager) (t sql rendered nm : String) (part : Bool)
      (c : Option String),
      render sql (pm.dataset_manager.template_variables c) = .ok rendered →
      DatasetManager.baseTableName
        (pm.dataset_manager.create_table_id (pm.decorate t part c)) = some nm →
      pm.dataset_manager.dataset_manager.tableExists nm = false →
      pm.write_truncate t sql part c
        = ([], .error (.tableNotFound
            (pm.dataset_manager.create_table_id (pm.decorate t part c)))) ∧
      pm.write_append t sql part c
        = ([], .error (.tableNotFound
            (pm.dataset_manager.create_table_id (pm.decorate t part c))))) := by
  have base : ∀ (dm : DatasetManager) (table_id sql nm : String),
      DatasetManager.baseTableName table_id = some nm →
      dm.tableExists nm = false →
      dm.write_truncate table_id sql = ([], .error (.tableNotFound table_id)) ∧
      dm.write_append table_id sql = ([], .error (.tableNotFound table_id)) := by
    intro dm table_id sql nm h1 h2
    constructor <;>
      simp [DatasetManager.write_truncate, DatasetManager.write_append,
        DatasetManager.table_exists_or_error, h1, h2]
  refine ⟨base, ?_⟩
  intro pm t sql rendered nm part c hr h1 h2
  constructor <;>
    simp [PartitionedDatasetManager.write_truncate, PartitionedDatasetManager.write_append,
      TemplatedDatasetManager.write_truncate, TemplatedDatasetManager.write_append,
      TemplatedDatasetManager.write, hr, (base _ _ rendered _ h1 h2).1,
      (base _ _ rendered _ h1 h2).2]

theorem c1_missing_base_blocks_write_witness :
    (sampleSession exNone "2020-01-01").write_truncate "orders" "SELECT 1" true none
      = ([], .error (.tableNotFound "project.dataset.orders$20200101")) :=
  (c1_missing_base_blocks_write.2 (sampleSession exNone "2020-01-01")
    "orders" "SELECT 1" "SELECT 1" "orders" true none rfl rfl rfl).1

/-- C2 (counterexample): `write_tmp` does not use a distinct OVERWRITE write
disposition — the job it submits carries `'WRITE_TRUNCATE'`, the very same
disposition `write_truncate` uses, so the claimed contrast with the
truncate mode is false at this concrete input. -/
theorem c2_counterexample :
    ((sampleSession exAll "2020-01-01").write_tmp "t" "SELECT 1" none).2
      = ([⟨"project.dataset.t", "SELECT 1", "WRITE_TRUNCATE"⟩], .ok ()) ∧
    (sampleSession exAll "2020-01-01").write_truncate "t" "SELECT 1" false none
      = ([⟨"project.dataset.t", "SELECT 1", "WRITE_TRUNCATE"⟩], .ok ()) ∧
    "WRITE_TRUNCATE" ≠ "WRITE_OVERWRITE" ∧ "WRITE_TRUNCATE" ≠ "OVERWRITE" :=
  ⟨rfl, rfl, by decide, by decide⟩

/-- C2 (amended): every job submitted by `write_tmp` carries the
`'WRITE_TRUNCATE'` disposition — the same disposition `write_truncate`
uses — and `write_tmp` differs from `write_truncate` only in skipping the
existence precondition; `write_append` uses `'WRITE_APPEND'`. -/
theorem c2_write_tmp_disposition :
    (∀ (dm : DatasetManager) (table_id sql : String),
      dm.write_tmp table_id sql = ([⟨table_id, sql, "WRITE_TRUNCATE"⟩], .ok ())) ∧
    (∀ (dm : DatasetManager) (table_id sql nm : String),
      DatasetManager.baseTableName table_id = some nm →
      dm.tableExists nm = true →
      dm.write_truncate table_id sql = ([⟨table_id, sql, "WRITE_TRUNCATE"⟩], .ok ()) ∧
      dm.write_append table_id sql = ([⟨table_id, sql, "WRITE_APPEND"⟩], .ok ())) := by
  refine ⟨fun dm table_id sql => rfl, ?_⟩
  intro dm table_id sql nm h1 h2
  constructor <;>
    simp [DatasetManager.write_truncate, DatasetManager.write_append,
      DatasetManager.table_exists_or_error, DatasetManager.write, h1, h2]

theorem c2_write_tmp_disposition_witness :
    DatasetManager.write_truncate ⟨"project.dataset", exAll⟩ "project.dataset.t" "SELECT 1"
      = ([⟨"project.dataset.t", "SELECT 1", "WRITE_TRUNCATE"⟩], .ok ()) :=
  (c2_write_tmp_disposition.2 ⟨"project.dataset", exAll⟩
    "project.dataset.t" "SELECT 1" "t" rfl rfl).1

/-- C4: `write_truncate("orders", sql)` with default `partitioned=True`, no
per-call runtime override, and session base runtime `"2020-01-01"` submits
exactly one write whose destination is the fully qualified
`orders$20200101`. -/
theorem c4_orders_partitioned_destination :
    ∀ (ex : String → Bool) (internal : List String) (external extras : Ctx)
      (sql rendered : String),
      ex "orders" = true →
      render sql ((create_dataset_manager "project.dataset" ex internal external extras
        "2020-01-01").dataset_manager.template_variables none) = .ok rendered →
      (create_dataset_manager "project.dataset" ex internal external extras
        "2020-01-01").decorate "orders" true none = "orders$20200101" ∧
      (create_dataset_manager "project.dataset" ex internal external extras
        "2020-01-01").write_truncate "orders" sql true none
        = ([⟨"project.dataset.orders$20200101", rendered, "WRITE_TRUNCATE"⟩], .ok ()) := by
  intro ex internal external extras sql rendered hex hr
  refine ⟨rfl, ?_⟩
  have hbase : DatasetManager.baseTableName "project.dataset.orders$20200101"
      = some "orders" := rfl
  have step1 : (create_dataset_manager "project.dataset" ex internal external extras
      "2020-01-01").write_truncate "orders" sql true none
      = (match render sql ((create_dataset_manager "project.dataset" ex internal external
            extras "2020-01-01").dataset_manager.template_variables none) with
        | .error e => ([], .error (.renderFailed e))
        | .ok r => DatasetManager.write_truncate ⟨"project.dataset", ex⟩
            "project.dataset.orders$20200101" r) := rfl
  have step2 : DatasetManager.write_truncate ⟨"project.dataset", ex⟩
      "project.dataset.orders$20200101" rendered
      = if ex "orders" = true
        then ([⟨"project.dataset.orders$20200101", rendered, "WRITE_TRUNCATE"⟩], .ok ())
        else ([], .error (.tableNotFound "project.dataset.orders$20200101")) := by
    by_cases hb : ex "orders" = true <;>
      simp [DatasetManager.write_truncate, DatasetManager.table_exists_or_error,
        hbase, hb, DatasetManager.write]
  rw [step1, hr]
  show DatasetManager.write_truncate ⟨"project.dataset", ex⟩
    "project.dataset.orders$20200101" rendered = _
  rw [step2, if_pos hex]

theorem c4_orders_partitioned_destination_witness :
    (sampleSession (fun n => n == "orders") "2020-01-01").write_truncate "orders"
      "SELECT 1" true none
      = ([⟨"project.dataset.orders$20200101", "SELECT 1", "WRITE_TRUNCATE"⟩], .ok ()) :=
  (c4_orders_partitioned_destination (fun n => n == "orders") [] emptyD emptyD
    "SELECT 1" "SELECT 1" rfl rfl).2

/-- C5 (counterexample): the code validates no runtime format, so a session
whose runtime is `"bad"` issues a partitioned write whose destination
carries the suffix `"bad"` — three non-digit characters, not 8 digits. -/
theorem c5_counterexample :
    (sampleSession exAll "bad").write_truncate "t" "SELECT 1" true none
      = ([⟨"project.dataset.t$bad", "SELECT 1", "WRITE_TRUNCATE"⟩], .ok ()) ∧
    (sampleSession exAll "bad").decorate "t" true none = "t$bad" ∧
    ¬("bad".length = 8) :=
  ⟨rfl, rfl, by decide⟩

/-- C5 (amended): provided every runtime reaching the partition policy —
the session's base runtime and any per-call override — is well formed per
the source docstring (`YYYY-MM-DD HH:mm:ss` or `YYYY-MM-DD`), the
destination name produced for a write is either the bare table name
(unpartitioned) or the name plus a `$`-suffix of exactly 8 digits. -/
theorem c5_suffix_eight_digits_or_absent :
    ∀ (pm : PartitionedDatasetManager) (t rt : String) (part : Bool) (c : Option String),
      pm.partition = get_partition_from_run_datetime_or_none (some rt) →
      wellFormedRuntime rt = true →
      (c = none ∨ ∃ cr, c = some cr ∧ wellFormedRuntime cr = true) →
      (part = false ∧ pm.decorate t part c = t) ∨
      (∃ p, pm.decorate t part c = t ++ "$" ++ p ∧ p.length = 8 ∧ ∀ ch ∈ p.data, ch.isDigit) := by
  intro pm t rt part c hpart hrt hc
  cases part with
  | false => exact Or.inl ⟨rfl, rfl⟩
  | true =>
    refine Or.inr ?_
    obtain ⟨prt, hprt, hprt8, hprtd⟩ := partition_of_wellFormed rt hrt
    rcases hc with rfl | ⟨cr, rfl, hcr⟩
    · refine ⟨prt, ?_, hprt8, hprtd⟩
      have hprt' : (⟨pyReplaceChar '-' [] (List.take 10 rt.data)⟩ : String) = prt := by
        have h := hprt
        simp [get_partition_from_run_datetime_or_none] at h
        exact h
      simp [PartitionedDatasetManager.decorate, get_partition_from_run_datetime_or_none,
        pyOrOpt, hpart, pyStrOpt, hprt']
    · obtain ⟨pc, hpc, hpc8, hpcd⟩ := partition_of_wellFormed cr hcr
      have hpcne : pc ≠ "" := by
        intro h0
        rw [h0] at hpc8
        exact absurd hpc8 (by decide)
      refine ⟨pc, ?_, hpc8, hpcd⟩
      simp [PartitionedDatasetManager.decorate, hpc, pyOrOpt, hpcne, pyStrOpt]

theorem c5_suffix_eight_digits_or_absent_witness :
    ((true = false ∧ (sampleSession exAll "2020-01-01").decorate "orders" true none = "orders") ∨
     (∃ p, (sampleSession exAll "2020-01-01").decorate "orders" true none = "orders" ++ "$" ++ p ∧
       p.length = 8 ∧ ∀ ch ∈ p.data, ch.isDigit)) :=
  c5_suffix_eight_digits_or_absent (sampleSession exAll "2020-01-01") "orders" "2020-01-01"
    true none rfl (by decide) (Or.inl rfl)

/-- A one-entry rendering context binding `"a"` to `"B"`. -/
def sampleCtx : Ctx := fun k => if k = "a" then some "B" else none

/-- C6 (counterexample): rendering is not idempotent — `\x7b\x7ba\x7d\x7d`
renders successfully to `\x7ba\x7d` (escaped braces produce literal braces),
and rendering that output again with the same context yields `B`, a
different string. -/
theorem c6_counterexample :
    render "\x7b\x7ba\x7d\x7d" sampleCtx = .ok "\x7ba\x7d" ∧
    render "\x7ba\x7d" sampleCtx = .ok "B" ∧
    ("\x7ba\x7d" : String) ≠ "B" :=
  ⟨rfl, rfl, by decide⟩

/-- C6 (amended): when a successful render's output contains no brace
character (hence no placeholder and no escape), rendering the output again
with the same context returns it unchanged; outputs with escaped braces can
change on a second pass. -/
theorem c6_render_idempotent_on_brace_free_output :
    ∀ (sql : String) (ctx : Ctx) (out : String),
      render sql ctx = .ok out →
      braceFree out.data →
      render out ctx = .ok out := by
  intro sql ctx out _ hb
  rw [render, renderGo_braceFree ctx out.data hb, string_mk_data]

theorem c6_render_idempotent_on_brace_free_output_witness :
    render "SELECT B" sampleCtx = .ok "SELECT B" :=
  c6_render_idempotent_on_brace_free_output "SELECT \x7ba\x7d" sampleCtx "SELECT B"
    rfl (by decide)

/-- C7: in the merged template context, an extras entry overrides internal
and external entries with the same name, while `dt` is written last and
shadows even a same-named extra; concretely, with internal `t ↦ "A"` and
extras `t ↦ "B"`, the placeholder `\x7bt\x7d` renders to `"B"`. -/
theorem c7_context_merge_precedence :
    (∀ (tm : TemplatedDatasetManager) (c : Option String) (k v : String),
      tm.extras k = some v → k ≠ "dt" → tm.template_variables c k = some v) ∧
    (∀ (tm : TemplatedDatasetManager) (c : Option String),
      tm.template_variables c "dt" = some (pyOrStr c tm.run_datetime)) ∧
    render "\x7bt\x7d" (TemplatedDatasetManager.template_variables
      ⟨⟨"project.dataset", exAll⟩, (fun k => if k = "t" then some "A" else none),
        emptyD, (fun k => if k = "t" then some "B" else none), "2020-01-01"⟩ none)
      = .ok "B" := by
  refine ⟨?_, ?_, rfl⟩
  · intro tm c k v hk hdt
    simp [TemplatedDatasetManager.template_variables, insertD, updateD, hdt, hk]
  · intro tm c
    simp [TemplatedDatasetManager.template_variables, insertD]

theorem c7_context_merge_precedence_witness :
    (TemplatedDatasetManager.template_variables
      ⟨⟨"project.dataset", exAll⟩, (fun k => if k = "t" then some "A" else none),
        emptyD, (fun k => if k = "t" then some "B" else none), "2020-01-01"⟩ none) "t"
      = some "B" :=
  c7_context_merge_precedence.1
    ⟨⟨"project.dataset", exAll⟩, (fun k => if k = "t" then some "A" else none),
      emptyD, (fun k => if k = "t" then some "B" else none), "2020-01-01"⟩
    none "t" "B" rfl (by decide)

/-- C8: a per-call `custom_run_datetime` override determines the partition
suffix and the `dt` variable for that call only; the session state is
untouched by the call, and a subsequent call without the override takes its
suffix from the session's base partition and its `dt` from the session's
base runtime. -/
theorem c8_custom_runtime_per_call_only :
    ∀ (pm : PartitionedDatasetManager) (t sql t2 c bp : String),
      String.mk (pyReplaceChar '-' [] (c.data.take 10)) ≠ "" →
      pm.partition = some bp →
      (step pm (.write_truncate t sql true (some c))).1 = pm ∧
      (step pm (.write_append t sql true (some c))).1 = pm ∧
      pm.decorate t true (some c)
        = t ++ "$" ++ String.mk (pyReplaceChar '-' [] (c.data.take 10)) ∧
      pm.dataset_manager.template_variables (some c) "dt" = some c ∧
      pm.decorate t2 true none = t2 ++ "$" ++ bp ∧
      pm.dataset_manager.template_variables none "dt"
        = some pm.dataset_manager.run_datetime := by
  intro pm t sql t2 c bp hpc hbp
  have hcne : c ≠ "" := by
    intro h0
    apply hpc
    rw [h0]
    rfl
  refine ⟨rfl, rfl, ?_, ?_, ?_, ?_⟩
  · simp [PartitionedDatasetManager.decorate, get_partition_from_run_datetime_or_none,
      pyOrOpt, hpc, pyStrOpt]
  · simp [TemplatedDatasetManager.template_variables, insertD, pyOrStr, hcne]
  · simp [PartitionedDatasetManager.decorate, get_partition_from_run_datetime_or_none,
      pyOrOpt, hbp, pyStrOpt]
  · simp [TemplatedDatasetManager.template_variables, insertD, pyOrStr]

theorem c8_custom_runtime_per_call_only_witness :
    (step (sampleSession exAll "2020-01-01")
        (.write_truncate "orders" "SELECT 1" true (some "2020-02-02"))).1
      = sampleSession exAll "2020-01-01" ∧
    (step (sampleSession exAll "2020-01-01")
        (.write_append "orders" "SELECT 1" true (some "2020-02-02"))).1
      = sampleSession exAll "2020-01-01" ∧
    (sampleSession exAll "2020-01-01").decorate "orders" true (some "2020-02-02")
      = "orders" ++ "$" ++ String.mk (pyReplaceChar '-' [] ("2020-02-02".data.take 10)) ∧
    (sampleSession exAll "2020-01-01").dataset_manager.template_variables
      (some "2020-02-02") "dt" = some "2020-02-02" ∧
    (sampleSession exAll "2020-01-01").decorate "t2" true none = "t2" ++ "$" ++ "20200101" ∧
    (sampleSession exAll "2020-01-01").dataset_manager.template_variables none "dt"
      = some (sampleSession exAll "2020-01-01").dataset_manager.run_datetime :=
  c8_custom_runtime_per_call_only (sampleSession exAll "2020-01-01")
    "orders" "SELECT 1" "t2" "2020-02-02" "20200101" (by decide) rfl

/-- Whether an operation is a `write_tmp` call. -/
def Op.isTmp : Op → Bool
  | .write_tmp _ _ _ => true
  | _ => false

/-- C9: within a session the internal-table alias map only grows — every
alias present before a step is still present after it — and `write_tmp` is
the only operation that changes the state at all; after
`write_tmp("staging", ...)`, a later statement containing `\x7bstaging\x7d`
renders to the fully qualified id that call registered. -/
theorem c9_alias_map_monotone :
    (∀ (pm : PartitionedDatasetManager) (op : Op) (k : String),
      (pm.dataset_manager.internal_tables k).isSome →
      (((step pm op).1).dataset_manager.internal_tables k).isSome) ∧
    (∀ (pm : PartitionedDatasetManager) (op : Op),
      op.isTmp = false → (step pm op).1 = pm) ∧
    (∀ (pm : PartitionedDatasetManager) (sql pre post : String) (c c2 : Option String),
      pm.dataset_manager.external_tables "staging" = none →
      pm.dataset_manager.extras "staging" = none →
      braceFree pre.data → braceFree post.data →
      render (pre ++ "\x7bstaging\x7d" ++ post)
        (((step pm (.write_tmp "staging" sql c)).1).dataset_manager.template_variables c2)
        = .ok (pre ++ pm.dataset_manager.create_table_id "staging" ++ post)) := by
  refine ⟨?_, ?_, ?_⟩
  · intro pm op k hk
    cases op with
    | write_tmp t sql c =>
      have hdec : pm.decorate t false c = t := rfl
      simp only [step, PartitionedDatasetManager.write_tmp,
        TemplatedDatasetManager.write_tmp, insertD, hdec]
      by_cases hkt : k = t <;> simp [hkt, hk]
    | write_truncate t sql part c => exact hk
    | write_append t sql part c => exact hk
    | collect sql c => exact hk
    | create_table q => exact hk
    | remove_dataset => exact hk
  · intro pm op hop
    cases op <;> simp_all [Op.isTmp, step]
  · intro pm sql pre post c c2 hext hextr hpre hpost
    have hk : (((step pm (.write_tmp "staging" sql c)).1).dataset_manager.template_variables c2)
        "staging" = some (pm.dataset_manager.create_table_id "staging") := by
      simp [step, PartitionedDatasetManager.write_tmp, TemplatedDatasetManager.write_tmp,
        PartitionedDatasetManager.decorate, TemplatedDatasetManager.template_variables,
        insertD, updateD, hext, hextr]
    have harg : pre ++ "\x7bstaging\x7d" ++ post
        = pre ++ "\x7b" ++ "staging" ++ "\x7d" ++ post := by
      simp [String.append_assoc]
    rw [harg]
    exact render_one_placeholder _ pre "staging" _ post hk (by decide) hpre (by decide) hpost

/-- C9 witness. -/
theorem c9_alias_map_monotone_witness :
    render ("SELECT * FROM " ++ "\x7bstaging\x7d" ++ " WHERE x=1")
      (((step (sampleSession exAll "2020-01-01")
          (.write_tmp "staging" "SELECT 1" none)).1).dataset_manager.template_variables none)
      = .ok ("SELECT * FROM " ++
          (sampleSession exAll "2020-01-01").dataset_manager.create_table_id "staging" ++
          " WHERE x=1") :=
  c9_alias_map_monotone.2.2 (sampleSession exAll "2020-01-01") "SELECT 1"
    "SELECT * FROM " " WHERE x=1" none none rfl rfl (by decide) (by decide)

/-- C10: `write_tmp` registers the resolved alias in the internal-table map
before anything is submitted, so the registration persists even when the
call fails: concretely, a `write_tmp` whose SQL references an unknown
placeholder raises the render error and submits nothing, yet the session's
map afterwards carries the new alias (no rollback on error). -/
theorem c10_write_tmp_registers_before_submit :
    (∀ (pm : PartitionedDatasetManager) (t sql : String) (c : Option String),
      (((step pm (.write_tmp t sql c)).1).dataset_manager.internal_tables t)
        = some (pm.dataset_manager.create_table_id t)) ∧
    ((((sampleSession exAll "2020-01-01").write_tmp "t" "\x7bmissing\x7d" none).1).dataset_manager.internal_tables "t" = some "project.dataset.t" ∧
      ((sampleSession exAll "2020-01-01").write_tmp "t" "\x7bmissing\x7d" none).2
        = ([], .error (.renderFailed (.keyError "missing")))) := by
  refine ⟨?_, rfl, rfl⟩
  intro pm t sql c
  simp [step, PartitionedDatasetManager.write_tmp, TemplatedDatasetManager.write_tmp,
    PartitionedDatasetManager.decorate, insertD]
